import Mathlib

/-!
# jmeter_stu: the metrics recorder and the request handlers of `main.go`

A shallow embedding of `src/main.go`.

Modelling conventions, fixed once for the whole development:

* `time.Duration` is a number of nanoseconds, an integer. The `int64`
  counters and the `int64` sum of the retained durations are embedded as
  unbounded integers: a counter wraps only after `2^63` recordings and the
  sum of at most 1001 elapsed times wraps only beyond 292 years.
* `AvgResponseTime` is a `float64`; the three-operand expression that
  computes it is embedded as the same expression over the rationals, so the
  statements about it are statements in exact arithmetic.
* `time.Since(start)` reads the clock; its result is an input of the model.
* Locks (`metricsLock`, `dbMutex`) make each operation atomic; an operation
  is a function on the state it guards.
* A closure handed to `pool.Submit` runs on a worker goroutine. Where it
  writes a variable that the handler also writes and reads without
  synchronisation (the `err` of the store and file handlers), the place of
  its write among the handler's accesses is an input of the model
  (`TaskTiming`).
* `pool.Submit` belongs to the `ants` library, which is not part of the
  repository; the handlers take its result as an input, and the admission
  rule of the pool is modelled from the specification.
-/

namespace JmeterStu

/-! ## Metrics -/

/-- A `time.Duration`, in nanoseconds. -/
abbrev Duration := Int

/-- The constant `time.Millisecond`. -/
def Millisecond : Duration := 1000000

/-- The global `metrics` struct of `main.go`. -/
structure Metrics where
  TotalRequests : Int
  SuccessfulRequests : Int
  FailedRequests : Int
  AvgResponseTime : ℚ
  RequestTimes : List Duration
  deriving DecidableEq

/-- The initial value of `metrics`: every field zero, the window empty. -/
def Metrics.zero : Metrics :=
  { TotalRequests := 0, SuccessfulRequests := 0, FailedRequests := 0,
    AvgResponseTime := 0, RequestTimes := [] }

/-- The loop `total := 0; for _, t := range times { total += t }`. -/
def sumDurations (times : List Duration) : Duration :=
  times.foldl (fun total t => total + t) 0

/-- The expression
`float64(total) / float64(len(times)) / float64(time.Millisecond)`. -/
def average (times : List Duration) : ℚ :=
  (sumDurations times : ℚ) / (times.length : ℚ) / (Millisecond : ℚ)

/-- The final statement of `recordMetrics`:
`if len(ts) > 1000 { ts = ts[len(ts)-1000:] }`. -/
def truncateWindow (times : List Duration) : List Duration :=
  if times.length > 1000 then times.drop (times.length - 1000) else times

/-- The function `recordMetrics(start, success)`, where `elapsed` is the value
of `time.Since(start)` inside the call. -/
def recordMetrics (elapsed : Duration) (success : Bool) (m : Metrics) : Metrics :=
  let total := m.TotalRequests + 1
  let succeeded := if success then m.SuccessfulRequests + 1 else m.SuccessfulRequests
  let failed := if success then m.FailedRequests else m.FailedRequests + 1
  let times := m.RequestTimes ++ [elapsed]
  let avg := average times
  { TotalRequests := total, SuccessfulRequests := succeeded, FailedRequests := failed,
    AvgResponseTime := avg, RequestTimes := truncateWindow times }

/-- A sequence of `recordMetrics` calls, oldest first, each given by the elapsed
time it measured and its `success` argument. -/
def recordAll (calls : List (Duration × Bool)) (m : Metrics) : Metrics :=
  calls.foldl (fun acc call => recordMetrics call.1 call.2 acc) m

/-- The number of calls of a sequence made with `success = true`. -/
def successes (calls : List (Duration × Bool)) : Nat :=
  calls.countP (fun call => call.2)

/-- The number of calls of a sequence made with `success = false`. -/
def failures (calls : List (Duration × Bool)) : Nat :=
  calls.countP (fun call => !call.2)

/-- The elapsed times of a sequence of calls, in recording order. -/
def elapsedOf (calls : List (Duration × Bool)) : List Duration :=
  calls.map (fun call => call.1)

/-- The last `k` entries of a list, in order. -/
def lastN (k : Nat) (times : List Duration) : List Duration :=
  times.drop (times.length - k)

/-- The arithmetic mean of a list of durations, in milliseconds. -/
def meanMs (times : List Duration) : ℚ :=
  (times.sum : ℚ) / (times.length : ℚ) / 1000000

/-- A recording sequence of 1001 calls: one request of 1002 ms followed by a
thousand requests of 1 ms each. -/
def slowThenFast : List (Duration × Bool) :=
  (1002000000, true) :: List.replicate 1000 (1000000, true)

/-- A recording sequence of 1500 calls, the `i`-th measuring `i` nanoseconds. -/
def fifteenHundred : List (Duration × Bool) :=
  (List.range 1500).map (fun (i : Nat) => (Int.ofNat i, true))

/-- A recording sequence of three calls: 2 ms and 4 ms succeeding, 6 ms failing. -/
def threeCalls : List (Duration × Bool) :=
  [(2000000, true), (4000000, true), (6000000, false)]

/-! ## The store -/

/-- The global `mockDB`: a Go map from string keys to values of type `V`
(the `interface{}` values held by the map). -/
abbrev Store (V : Type) := String → Option V

/-- The function `dbReadOperation(key)`, run under the read lock: the pair of
its results (the value, or the error `key '...' not found`) and the store it
leaves. -/
def dbReadOperation {V : Type} (key : String) (mockDB : Store V) :
    Except String V × Store V :=
  match mockDB key with
  | some val => (Except.ok val, mockDB)
  | none => (Except.error ("key '" ++ key ++ "' not found"), mockDB)

/-- The function `dbWriteOperation(key, value)`, run under the write lock: its
error result (always nil) and the store after `mockDB[key] = value`. -/
def dbWriteOperation {V : Type} (key : String) (value : V) (mockDB : Store V) :
    Option String × Store V :=
  (none, fun k => if k = key then some value else mockDB k)

/-! ## Requests, effects and the environment of one request -/

/-- Status codes of `net/http` used by `main.go`. -/
def StatusOK : Nat := 200
/-- The constant `http.StatusMovedPermanently`. -/
def StatusMovedPermanently : Nat := 301
/-- The constant `http.StatusTemporaryRedirect`. -/
def StatusTemporaryRedirect : Nat := 307
/-- The constant `http.StatusPermanentRedirect`. -/
def StatusPermanentRedirect : Nat := 308
/-- The constant `http.StatusBadRequest`. -/
def StatusBadRequest : Nat := 400
/-- The constant `http.StatusNotFound`. -/
def StatusNotFound : Nat := 404
/-- The constant `http.StatusInternalServerError`. -/
def StatusInternalServerError : Nat := 500

/-- A status code that `net/http` names a permanent redirect: 301 or 308. -/
def isPermanentRedirect (status : Nat) : Prop :=
  status = StatusMovedPermanently ∨ status = StatusPermanentRedirect

instance (status : Nat) : Decidable (isPermanentRedirect status) := by
  unfold isPermanentRedirect; infer_instance

/-- The closures handed to `pool.Submit`, named by the operation they wrap. -/
inductive Task (V : Type) where
  | cpu : Task V
  | io : Task V
  | dbRead (key : String) : Task V
  | dbWrite (key : String) (value : V) : Task V
  | file (data : List UInt8) : Task V

/-- One value of a `gin.H` response body. -/
inductive Field (V : Type) where
  | text (s : String) : Field V
  | int (n : Int) : Field V
  | real (x : ℚ) : Field V
  | value (v : V) : Field V
  | null : Field V

/-- A `gin.H` response body: its keys and values, in source order. -/
abbrev Body (V : Type) := List (String × Field V)

/-- What a handler does that is visible outside its own local variables. -/
inductive Effect (V : Type) where
  /-- A call `pool.Submit(task)` and the error it returned (`none` for nil). -/
  | submit (task : Task V) (err : Option String) : Effect V
  /-- A call `wg.Wait()` that returned. -/
  | wait : Effect V
  /-- A call `c.JSON(status, body)`. -/
  | json (status : Nat) (body : Body V) : Effect V
  /-- A call `c.Redirect(status, location)`. -/
  | redirect (status : Nat) (location : String) : Effect V
  /-- A call `recordMetrics(start, success)`. -/
  | record (success : Bool) : Effect V

/-- When the closure of a request writes the variable `err` it shares with the
handler, among the handler's own accesses to `err`: the store of the result of
`pool.Submit` (`err = pool.Submit(...)`), the read that follows it
(`if err != nil`), and the read after `wg.Wait()`. -/
inductive TaskTiming where
  /-- The closure has written before the handler stores the result of `Submit`. -/
  | beforeStore : TaskTiming
  /-- The closure writes after that store and before the read that follows it. -/
  | beforeCheck : TaskTiming
  /-- The closure writes after that read; the handler sees it after `wg.Wait()`. -/
  | duringWait : TaskTiming
  deriving DecidableEq

/-- The value of the shared `err` at the read `if err != nil` that follows
`err = pool.Submit(...)`: the error of `Submit` when it refused the task (the
closure then never runs); otherwise the nil that `Submit` returned, unless the
closure has written `taskErr` over it in between. -/
def errAtCheck (submitErr : Option String) (timing : TaskTiming)
    (taskErr : Option String) : Option String :=
  match submitErr with
  | some e => some e
  | none =>
    match timing with
    | TaskTiming.beforeStore => none
    | TaskTiming.beforeCheck => taskErr
    | TaskTiming.duringWait => none

/-- The value of the shared `err` at the read after `wg.Wait()`, for an accepted
task: what the closure wrote, unless the handler stored the nil of `Submit`
over it afterwards. -/
def errAfterWait (timing : TaskTiming) (taskErr : Option String) : Option String :=
  match timing with
  | TaskTiming.beforeStore => none
  | TaskTiming.beforeCheck => taskErr
  | TaskTiming.duringWait => taskErr

/-- The first result of a Go call returning `(value, error)`, as the variable
of type `interface{}` it is assigned to: nil when the call failed. -/
def resultOf {V : Type} (res : Except String V) : Option V :=
  match res with
  | Except.ok v => some v
  | Except.error _ => none

/-- The second result of a Go call returning `(value, error)`. -/
def errorOf {V : Type} (res : Except String V) : Option String :=
  match res with
  | Except.ok _ => none
  | Except.error e => some e

/-- The JSON field holding a variable of type `interface{}`. -/
def Field.ofResult {V : Type} (result : Option V) : Field V :=
  match result with
  | some v => Field.value v
  | none => Field.null

/-- What the world outside the handler supplies during one request: results
of library calls and clock reads, and the scheduling of the worker. -/
structure Env (V : Type) where
  /-- The error returned by the first `pool.Submit` of the request. -/
  submitErr : Option String
  /-- The error returned by the second `pool.Submit` (`/api/mixed` only). -/
  submitErr2 : Option String
  /-- The `float64` returned by `cpuIntensiveTask()`. -/
  cpuResult : ℚ
  /-- The bytes returned by `io.ReadAll(c.Request.Body)`. -/
  body : List UInt8
  /-- The error returned by `io.ReadAll(c.Request.Body)`. -/
  bodyErr : Option String
  /-- The function `json.Unmarshal` into an `interface{}`. -/
  unmarshal : List UInt8 → Except String V
  /-- The error returned by `fileOperation(string(body))`. -/
  fileErr : Option String
  /-- When the closure writes the `err` it shares with the handler. -/
  taskTiming : TaskTiming
  /-- The value of `time.Since(start)` when the success body is built. -/
  replySince : Duration
  /-- The value of `time.Since(start)` inside `recordMetrics`. -/
  elapsed : Duration
  /-- The value of `time.Now().Unix()` in the health handler. -/
  unixNow : Int
  /-- The value of `pool.Running()`. -/
  poolRunning : Int
  /-- The value of `pool.Free()`. -/
  poolFree : Int
  /-- The value of `pool.Cap()`. -/
  poolCap : Int

/-- The process-wide state: the `metrics` struct and `mockDB`. -/
structure World (V : Type) where
  metrics : Metrics
  mockDB : Store V

/-- The state threaded through one handler run: the process-wide state and the
effects performed so far, oldest first. -/
structure Ctx (V : Type) where
  metrics : Metrics
  mockDB : Store V
  trace : List (Effect V)

/-- The state at the entry of a handler. -/
def Ctx.start {V : Type} (w : World V) : Ctx V :=
  { metrics := w.metrics, mockDB := w.mockDB, trace := [] }

/-- Appends one effect to the trace. -/
def Ctx.emit {V : Type} (e : Effect V) (c : Ctx V) : Ctx V :=
  { c with trace := c.trace ++ [e] }

/-- A call `pool.Submit(task)` returning `err`. -/
def poolSubmit {V : Type} (task : Task V) (err : Option String) (c : Ctx V) : Ctx V :=
  c.emit (Effect.submit task err)

/-- A call `wg.Wait()`. -/
def wgWait {V : Type} (c : Ctx V) : Ctx V :=
  c.emit Effect.wait

/-- A call `c.JSON(status, body)`. -/
def cJSON {V : Type} (status : Nat) (body : Body V) (c : Ctx V) : Ctx V :=
  c.emit (Effect.json status body)

/-- A call `c.Redirect(status, location)`. -/
def cRedirect {V : Type} (status : Nat) (location : String) (c : Ctx V) : Ctx V :=
  c.emit (Effect.redirect status location)

/-- A call `recordMetrics(start, success)` from a handler, measuring `elapsed`. -/
def callRecordMetrics {V : Type} (elapsed : Duration) (success : Bool) (c : Ctx V) : Ctx V :=
  { c with metrics := recordMetrics elapsed success c.metrics,
           trace := c.trace ++ [Effect.record success] }

/-- The method `Duration.Milliseconds()`: whole milliseconds, rounded toward zero. -/
def milliseconds (d : Duration) : Int :=
  Int.tdiv d 1000000

/-! ## The handlers of `main`

Each handler is the source handler with its statements in order. A task
refused by `pool.Submit` never runs; a task accepted by it has run when
`wg.Wait()` returns. The closures of `/api/cpu`, `/api/io` and `/api/mixed`
write only `result`, which the handler reads after `wg.Wait()`. The closures
of `GET /api/db/:key`, `POST /api/db/:key` and `POST /api/file` write the same
`err` that the handler assigns from `pool.Submit` and tests before
`wg.Wait()`; `errAtCheck` and `errAfterWait` give what the handler reads. -/

/-- The handler of `GET /api/health`. -/
def handleHealth {V : Type} (env : Env V) (c : Ctx V) : Ctx V :=
  cJSON StatusOK [("status", Field.text "ok"), ("timestamp", Field.int env.unixNow)] c

/-- The handler of `GET /api/cpu`. -/
def handleCpu {V : Type} (env : Env V) (c : Ctx V) : Ctx V :=
  let c := poolSubmit Task.cpu env.submitErr c
  match env.submitErr with
  | some e =>
    let c := cJSON StatusInternalServerError [("error", Field.text e)] c
    callRecordMetrics env.elapsed false c
  | none =>
    let c := wgWait c
    let result := env.cpuResult
    let c := cJSON StatusOK
      [("result", Field.real result),
       ("execution_time_ms", Field.int (milliseconds env.replySince))] c
    callRecordMetrics env.elapsed true c

/-- The handler of `GET /api/io`. -/
def handleIo {V : Type} (env : Env V) (c : Ctx V) : Ctx V :=
  let c := poolSubmit Task.io env.submitErr c
  match env.submitErr with
  | some e =>
    let c := cJSON StatusInternalServerError [("error", Field.text e)] c
    callRecordMetrics env.elapsed false c
  | none =>
    let c := wgWait c
    let c := cJSON StatusOK
      [("status", Field.text "completed"),
       ("execution_time_ms", Field.int (milliseconds env.replySince))] c
    callRecordMetrics env.elapsed true c

/-- The handler of `GET /api/db/:key`. -/
def handleDbGet {V : Type} (key : String) (env : Env V) (c : Ctx V) : Ctx V :=
  let c := poolSubmit (Task.dbRead key) env.submitErr c
  -- the closure, when it runs: `result, err = dbReadOperation(key)`
  let (res, db) := dbReadOperation key c.mockDB
  let result := resultOf res
  match errAtCheck env.submitErr env.taskTiming (errorOf res) with
  | some e =>
    let c := { c with mockDB := if env.submitErr.isSome then c.mockDB else db }
    let c := cJSON StatusInternalServerError [("error", Field.text e)] c
    callRecordMetrics env.elapsed false c
  | none =>
    let c := wgWait c
    let c := { c with mockDB := db }
    match errAfterWait env.taskTiming (errorOf res) with
    | some e =>
      let c := cJSON StatusNotFound [("error", Field.text e)] c
      callRecordMetrics env.elapsed false c
    | none =>
      let c := cJSON StatusOK
        [("data", Field.ofResult result),
         ("execution_time_ms", Field.int (milliseconds env.replySince))] c
      callRecordMetrics env.elapsed true c

/-- The handler of `POST /api/db/:key`. -/
def handleDbPost {V : Type} (key : String) (env : Env V) (c : Ctx V) : Ctx V :=
  match env.bodyErr with
  | some _ =>
    let c := cJSON StatusBadRequest [("error", Field.text "Failed to read request body")] c
    callRecordMetrics env.elapsed false c
  | none =>
    match env.unmarshal env.body with
    | Except.error _ =>
      let c := cJSON StatusBadRequest [("error", Field.text "Invalid JSON format")] c
      callRecordMetrics env.elapsed false c
    | Except.ok data =>
      let c := poolSubmit (Task.dbWrite key data) env.submitErr c
      -- the closure, when it runs: `err = dbWriteOperation(key, data)`
      let (taskErr, db) := dbWriteOperation key data c.mockDB
      match errAtCheck env.submitErr env.taskTiming taskErr with
      | some e =>
        let c := { c with mockDB := if env.submitErr.isSome then c.mockDB else db }
        let c := cJSON StatusInternalServerError [("error", Field.text e)] c
        callRecordMetrics env.elapsed false c
      | none =>
        let c := wgWait c
        let c := { c with mockDB := db }
        match errAfterWait env.taskTiming taskErr with
        | some e =>
          let c := cJSON StatusInternalServerError [("error", Field.text e)] c
          callRecordMetrics env.elapsed false c
        | none =>
          let c := cJSON StatusOK
            [("status", Field.text "success"), ("key", Field.text key),
             ("execution_time_ms", Field.int (milliseconds env.replySince))] c
          callRecordMetrics env.elapsed true c

/-- The handler of `POST /api/file`. -/
def handleFile {V : Type} (env : Env V) (c : Ctx V) : Ctx V :=
  match env.bodyErr with
  | some _ =>
    let c := cJSON StatusBadRequest [("error", Field.text "Failed to read request body")] c
    callRecordMetrics env.elapsed false c
  | none =>
    let c := poolSubmit (Task.file env.body) env.submitErr c
    -- the closure, when it runs: `err = fileOperation(string(body))`
    let taskErr := env.fileErr
    match errAtCheck env.submitErr env.taskTiming taskErr with
    | some e =>
      let c := cJSON StatusInternalServerError [("error", Field.text e)] c
      callRecordMetrics env.elapsed false c
    | none =>
      let c := wgWait c
      match errAfterWait env.taskTiming taskErr with
      | some e =>
        let c := cJSON StatusInternalServerError [("error", Field.text e)] c
        callRecordMetrics env.elapsed false c
      | none =>
        let c := cJSON StatusOK
          [("status", Field.text "success"), ("size_bytes", Field.int env.body.length),
           ("execution_time_ms", Field.int (milliseconds env.replySince))] c
        callRecordMetrics env.elapsed true c

/-- The handler of `GET /api/mixed`. -/
def handleMixed {V : Type} (env : Env V) (c : Ctx V) : Ctx V :=
  let c := poolSubmit Task.cpu env.submitErr c
  let c := poolSubmit Task.io env.submitErr2 c
  if env.submitErr.isSome || env.submitErr2.isSome then
    let c := cJSON StatusInternalServerError [("error", Field.text "Failed to submit tasks")] c
    callRecordMetrics env.elapsed false c
  else
    let c := wgWait c
    let result := env.cpuResult
    let c := cJSON StatusOK
      [("status", Field.text "completed"), ("cpu_result", Field.real result),
       ("execution_time_ms", Field.int (milliseconds env.replySince))] c
    callRecordMetrics env.elapsed true c

/-- The handler of `GET /api/metrics`. -/
def handleMetrics {V : Type} (env : Env V) (c : Ctx V) : Ctx V :=
  cJSON StatusOK
    [("total_requests", Field.int c.metrics.TotalRequests),
     ("successful_requests", Field.int c.metrics.SuccessfulRequests),
     ("failed_requests", Field.int c.metrics.FailedRequests),
     ("avg_response_time_ms", Field.real c.metrics.AvgResponseTime),
     ("pool_running_workers", Field.int env.poolRunning),
     ("pool_free_workers", Field.int env.poolFree),
     ("pool_capacity", Field.int env.poolCap)] c

/-- The handler of the legacy route `GET /health`. -/
def handleLegacyHealth {V : Type} (c : Ctx V) : Ctx V :=
  cRedirect StatusTemporaryRedirect "/api/health" c

/-- The handler of the legacy route `GET /cpu`. -/
def handleLegacyCpu {V : Type} (c : Ctx V) : Ctx V :=
  cRedirect StatusTemporaryRedirect "/api/cpu" c

/-- The handler of the legacy route `GET /io`. -/
def handleLegacyIo {V : Type} (c : Ctx V) : Ctx V :=
  cRedirect StatusTemporaryRedirect "/api/io" c

/-- The routes registered by `main`. -/
inductive Route where
  | apiHealth : Route
  | apiCpu : Route
  | apiIo : Route
  | apiDbGet (key : String) : Route
  | apiDbPost (key : String) : Route
  | apiFile : Route
  | apiMixed : Route
  | apiMetrics : Route
  | legacyHealth : Route
  | legacyCpu : Route
  | legacyIo : Route
  deriving DecidableEq

/-- The routing table of `main`: the handler registered for each route, run
from the process-wide state `w`. -/
def serve {V : Type} (r : Route) (env : Env V) (w : World V) : Ctx V :=
  match r with
  | Route.apiHealth => handleHealth env (Ctx.start w)
  | Route.apiCpu => handleCpu env (Ctx.start w)
  | Route.apiIo => handleIo env (Ctx.start w)
  | Route.apiDbGet key => handleDbGet key env (Ctx.start w)
  | Route.apiDbPost key => handleDbPost key env (Ctx.start w)
  | Route.apiFile => handleFile env (Ctx.start w)
  | Route.apiMixed => handleMixed env (Ctx.start w)
  | Route.apiMetrics => handleMetrics env (Ctx.start w)
  | Route.legacyHealth => handleLegacyHealth (Ctx.start w)
  | Route.legacyCpu => handleLegacyCpu (Ctx.start w)
  | Route.legacyIo => handleLegacyIo (Ctx.start w)

/-- The six handlers that dispatch work to the pool. -/
def Route.isWorkload : Route → Bool
  | Route.apiCpu => true
  | Route.apiIo => true
  | Route.apiDbGet _ => true
  | Route.apiDbPost _ => true
  | Route.apiFile => true
  | Route.apiMixed => true
  | _ => false

/-- The `/api/...` path a legacy route stands for. -/
def Route.legacyTarget : Route → Option String
  | Route.legacyHealth => some "/api/health"
  | Route.legacyCpu => some "/api/cpu"
  | Route.legacyIo => some "/api/io"
  | _ => none

/-! ## Observations of a trace -/

/-- The status codes written by the response calls of a trace, in order. -/
def statuses {V : Type} (tr : List (Effect V)) : List Nat :=
  tr.filterMap (fun e =>
    match e with
    | Effect.json status _ => some status
    | Effect.redirect status _ => some status
    | _ => none)

/-- The `success` arguments of the `recordMetrics` calls of a trace, in order. -/
def recordCalls {V : Type} (tr : List (Effect V)) : List Bool :=
  tr.filterMap (fun e =>
    match e with
    | Effect.record success => some success
    | _ => none)

/-- The errors returned by the `pool.Submit` calls of a trace, in order. -/
def submitResults {V : Type} (tr : List (Effect V)) : List (Option String) :=
  tr.filterMap (fun e =>
    match e with
    | Effect.submit _ err => some err
    | _ => none)

/-- The number of `wg.Wait()` calls of a trace. -/
def waitCount {V : Type} (tr : List (Effect V)) : Nat :=
  (tr.filter (fun e =>
    match e with
    | Effect.wait => true
    | _ => false)).length

/-- The bodies of the `c.JSON` calls of a trace, in order. -/
def bodies {V : Type} (tr : List (Effect V)) : List (Body V) :=
  tr.filterMap (fun e =>
    match e with
    | Effect.json _ body => some body
    | _ => none)

/-- The targets of the `c.Redirect` calls of a trace, in order. -/
def redirectTargets {V : Type} (tr : List (Effect V)) : List String :=
  tr.filterMap (fun e =>
    match e with
    | Effect.redirect _ location => some location
    | _ => none)

/-! ## The worker pool

The pool is created by `init()` with `ants.NewPool(100000, ...)`. The code of
`ants` is not part of the repository: its admission rule is modelled from the
specification (section 4.1), with the options that `init()` sets. -/

/-- The arguments `init()` passes to `ants.NewPool`: the capacity and the
fields of `ants.Options`. -/
structure PoolOptions where
  capacity : Nat
  ExpiryDuration : Duration
  PreAlloc : Bool
  MaxBlockingTasks : Nat
  Nonblocking : Bool

/-- The occupancy of the pool: tasks running on a worker, and submissions
waiting for a worker. -/
structure Pool where
  running : Nat
  waiting : Nat
  deriving DecidableEq

/-- What one `pool.Submit` call does. -/
inductive SubmitOutcome where
  /-- The task goes to a free worker and `Submit` returns nil at once. -/
  | started : SubmitOutcome
  /-- The task is admitted and waits for a worker; `callerBlocked` tells
  whether the calling goroutine is held in `Submit` until a worker takes it. -/
  | queued (callerBlocked : Bool) : SubmitOutcome
  /-- The call fails with the pool-saturated error. -/
  | saturated : SubmitOutcome
  deriving DecidableEq

/-- Modelled from the spec: `pool.Submit` of the `ants` pool, whose code is
missing from the repository. Section 4.1: the call fails with `PoolSaturated`
if `running == capacity` and the number of submissions already waiting has
reached the limit; otherwise the task is assigned to a free worker or takes a
place among the waiting submissions. The option `Nonblocking` that `init()`
sets says whether a waiting submission returns to its caller at once
(`true`) or holds the caller until a worker is free (`false`). -/
def Pool.submit (o : PoolOptions) (p : Pool) : Pool × SubmitOutcome :=
  if o.capacity ≤ p.running ∧ o.MaxBlockingTasks ≤ p.waiting then
    (p, SubmitOutcome.saturated)
  else if p.running < o.capacity then
    ({ p with running := p.running + 1 }, SubmitOutcome.started)
  else
    ({ p with waiting := p.waiting + 1 }, SubmitOutcome.queued (!o.Nonblocking))

/-- The eight bytes of the request body `not-json`. -/
def notJson : List UInt8 := [110, 111, 116, 45, 106, 115, 111, 110]

/-- A store holding the one key `users` that `init` creates; the number `2`
stands for its two-element user list. -/
def sampleWorld : World Nat :=
  { metrics := Metrics.zero, mockDB := fun k => if k = "users" then some 2 else none }

/-- An environment in which the pool accepts every task, the closure writes
`err` while the handler waits, the body read succeeds with the bytes
`not-json`, and the decoder rejects exactly that body. -/
def sampleEnv : Env Nat :=
  { submitErr := none, submitErr2 := none, cpuResult := 0,
    body := notJson, bodyErr := none,
    unmarshal := fun b => if b = notJson then Except.error "invalid character" else Except.ok 0,
    fileErr := none, taskTiming := TaskTiming.duringWait, replySince := 3000000, elapsed := 3500000, unixNow := 1700000000,
    poolRunning := 1, poolFree := 99999, poolCap := 100000 }

/-- The environment `sampleEnv` with a pool that refuses the first task. -/
def saturatedEnv : Env Nat :=
  { sampleEnv with submitErr := some "too many goroutines blocked on submit or Nonblocking is set" }

/-- The environment `sampleEnv` with a worker that writes `err` between the
handler's store of the result of `Submit` and the read that follows it. -/
def earlyTaskEnv : Env Nat :=
  { sampleEnv with taskTiming := TaskTiming.beforeCheck }

/-- The environment `sampleEnv` with a worker that has written `err` before the
handler stores the result of `Submit`. -/
def overwrittenEnv : Env Nat :=
  { sampleEnv with taskTiming := TaskTiming.beforeStore }

/-! ## Lemmas on lists of durations -/

theorem sumDurations_eq_sum (times : List Duration) : sumDurations times = times.sum := by
  unfold sumDurations
  have h : ∀ (l : List Duration) (a : Int),
      l.foldl (fun total t => total + t) a = a + l.sum := by
    intro l
    induction l with
    | nil => intro a; simp
    | cons x xs ih => intro a; simp [ih, add_assoc]
  simpa using h times 0

theorem average_eq_meanMs (times : List Duration) : average times = meanMs times := by
  unfold average meanMs Millisecond
  rw [sumDurations_eq_sum]
  norm_num

theorem truncateWindow_eq_lastN (times : List Duration) :
    truncateWindow times = lastN 1000 times := by
  unfold truncateWindow lastN
  split
  · rfl
  · rename_i h
    have h0 : times.length - 1000 = 0 := by omega
    simp [h0]

theorem lastN_length (k : Nat) (xs : List Duration) :
    (lastN k xs).length = min xs.length k := by
  unfold lastN
  simp only [List.length_drop]
  omega

theorem lastN_of_length_le (k : Nat) (xs : List Duration) (h : xs.length ≤ k) :
    lastN k xs = xs := by
  unfold lastN
  have h0 : xs.length - k = 0 := by omega
  simp [h0]

theorem lastN_snoc (k : Nat) (xs : List Duration) (e : Duration) :
    lastN k xs ++ [e] = lastN (k + 1) (xs ++ [e]) := by
  unfold lastN
  have h3 : (xs ++ [e]).length - (k + 1) = xs.length - k := by
    simp only [List.length_append, List.length_singleton]
    omega
  rw [h3, List.drop_append_of_le_length (by omega)]

theorem lastN_lastN_succ (k : Nat) (xs : List Duration) :
    lastN k (lastN (k + 1) xs) = lastN k xs := by
  unfold lastN
  simp only [List.length_drop, List.drop_drop]
  congr 1
  omega

/-! ## Lemmas on `recordMetrics` and `recordAll` -/

theorem recordAll_snoc (calls : List (Duration × Bool)) (call : Duration × Bool) (m : Metrics) :
    recordAll (calls ++ [call]) m = recordMetrics call.1 call.2 (recordAll calls m) := by
  unfold recordAll
  rw [List.foldl_append]
  rfl

theorem successes_add_failures (calls : List (Duration × Bool)) :
    successes calls + failures calls = calls.length := by
  unfold successes failures
  induction calls with
  | nil => rfl
  | cons c cs ih =>
    rcases c with ⟨e, b⟩
    cases b <;> simp [List.countP_cons] <;> omega

theorem recordAll_counts (calls : List (Duration × Bool)) (m : Metrics) :
    (recordAll calls m).TotalRequests = m.TotalRequests + calls.length ∧
    (recordAll calls m).SuccessfulRequests = m.SuccessfulRequests + successes calls ∧
    (recordAll calls m).FailedRequests = m.FailedRequests + failures calls := by
  induction calls using List.reverseRecOn with
  | nil => simp [recordAll, successes, failures]
  | append_singleton cs c ih =>
    obtain ⟨h1, h2, h3⟩ := ih
    rcases c with ⟨e, b⟩
    rw [recordAll_snoc]
    cases b <;>
      simp [recordMetrics, h1, h2, h3, successes, failures, List.countP_append] <;>
      constructor <;> ring

theorem recordAll_window (calls : List (Duration × Bool)) (m : Metrics)
    (h : m.RequestTimes.length ≤ 1000) :
    (recordAll calls m).RequestTimes = lastN 1000 (m.RequestTimes ++ elapsedOf calls) := by
  induction calls using List.reverseRecOn with
  | nil => simp [recordAll, elapsedOf, lastN_of_length_le 1000 m.RequestTimes h]
  | append_singleton cs c ih =>
    rw [recordAll_snoc]
    have hs : elapsedOf (cs ++ [c]) = elapsedOf cs ++ [c.1] := by simp [elapsedOf]
    simp only [recordMetrics]
    rw [truncateWindow_eq_lastN, ih, lastN_snoc, lastN_lastN_succ, hs, List.append_assoc]

theorem recordAll_average (calls : List (Duration × Bool)) (call : Duration × Bool) (m : Metrics)
    (h : m.RequestTimes.length ≤ 1000) :
    (recordAll (calls ++ [call]) m).AvgResponseTime =
      meanMs (lastN 1001 (m.RequestTimes ++ elapsedOf (calls ++ [call]))) := by
  have hs : elapsedOf (calls ++ [call]) = elapsedOf calls ++ [call.1] := by simp [elapsedOf]
  rw [recordAll_snoc]
  simp only [recordMetrics]
  rw [average_eq_meanMs, recordAll_window calls m h, lastN_snoc, hs, List.append_assoc]

/-! ## Claims on the metrics recorder -/

/-- C1: from the zeroed metrics state, after any finite sequence of
`recordMetrics` calls with `s` successes and `f` failures (any elapsed times,
any order), `TotalRequests = s + f`, `SuccessfulRequests = s`,
`FailedRequests = f`, and so `SuccessfulRequests + FailedRequests =
TotalRequests` after every call; `s + f` is the number of calls. -/
theorem counters_after_recordings (calls : List (Duration × Bool)) :
    (recordAll calls Metrics.zero).TotalRequests = successes calls + failures calls ∧
    (recordAll calls Metrics.zero).SuccessfulRequests = successes calls ∧
    (recordAll calls Metrics.zero).FailedRequests = failures calls ∧
    (recordAll calls Metrics.zero).SuccessfulRequests +
      (recordAll calls Metrics.zero).FailedRequests =
      (recordAll calls Metrics.zero).TotalRequests ∧
    successes calls + failures calls = calls.length := by
  obtain ⟨h1, h2, h3⟩ := recordAll_counts calls Metrics.zero
  have hsf : ((successes calls : Int) + (failures calls : Int)) = (calls.length : Int) := by
    exact_mod_cast successes_add_failures calls
  rw [show Metrics.zero.TotalRequests = 0 from rfl, zero_add] at h1
  rw [show Metrics.zero.SuccessfulRequests = 0 from rfl, zero_add] at h2
  rw [show Metrics.zero.FailedRequests = 0 from rfl, zero_add] at h3
  refine ⟨?_, h2, h3, ?_, successes_add_failures calls⟩
  · rw [h1, hsf]
  · rw [h1, h2, h3, hsf]

/-- C2: starting from an empty window, after `n` calls to `recordMetrics` the
retained `RequestTimes` is exactly the last `min n 1000` recorded durations in
recording order; its length is `min n 1000`, never above 1000; and after 1500
recordings it holds exactly the 1000 durations `e_501 .. e_1500`. -/
theorem window_keeps_last_thousand (m : Metrics) (calls : List (Duration × Bool))
    (hempty : m.RequestTimes = []) :
    (recordAll calls m).RequestTimes = lastN (min calls.length 1000) (elapsedOf calls) ∧
    (recordAll calls m).RequestTimes.length = min calls.length 1000 ∧
    (recordAll calls m).RequestTimes.length ≤ 1000 ∧
    (calls.length = 1500 →
      (recordAll calls m).RequestTimes = (elapsedOf calls).drop 500 ∧
      (recordAll calls m).RequestTimes.length = 1000) := by
  have hw := recordAll_window calls m (by simp [hempty])
  rw [hempty, List.nil_append] at hw
  have hlen : (elapsedOf calls).length = calls.length := by simp [elapsedOf]
  have hmin : lastN (min calls.length 1000) (elapsedOf calls) = lastN 1000 (elapsedOf calls) := by
    unfold lastN
    have hk : (elapsedOf calls).length - min calls.length 1000 =
        (elapsedOf calls).length - 1000 := by omega
    rw [hk]
  have hl : (recordAll calls m).RequestTimes.length = min calls.length 1000 := by
    rw [hw, lastN_length, hlen]
  refine ⟨by rw [hw, hmin], hl, by rw [hl]; omega, ?_⟩
  intro h1500
  refine ⟨?_, by rw [hl, h1500]; rfl⟩
  rw [hw]
  unfold lastN
  rw [hlen, h1500]

/-- C2, at a concrete input: 1500 recordings from the zeroed state leave the
last 1000 durations. -/
theorem window_keeps_last_thousand_witness :
    Metrics.zero.RequestTimes = [] ∧ fifteenHundred.length = 1500 ∧
    (recordAll fifteenHundred Metrics.zero).RequestTimes = (elapsedOf fifteenHundred).drop 500 ∧
    (recordAll fifteenHundred Metrics.zero).RequestTimes.length = 1000 :=
  ⟨rfl, by simp [fifteenHundred],
    ((window_keeps_last_thousand Metrics.zero fifteenHundred rfl).2.2.2
      (by simp [fifteenHundred])).1,
    ((window_keeps_last_thousand Metrics.zero fifteenHundred rfl).2.2.2
      (by simp [fifteenHundred])).2⟩

theorem recordAll_average_of_ne_nil (calls : List (Duration × Bool)) (m : Metrics)
    (h : m.RequestTimes.length ≤ 1000) (hne : calls ≠ []) :
    (recordAll calls m).AvgResponseTime =
      meanMs (lastN 1001 (m.RequestTimes ++ elapsedOf calls)) := by
  induction calls using List.reverseRecOn with
  | nil => exact absurd rfl hne
  | append_singleton cs c _ => exact recordAll_average cs c m h

theorem zero_window_length : Metrics.zero.RequestTimes.length ≤ 1000 :=
  Nat.zero_le 1000

theorem elapsedOf_length (calls : List (Duration × Bool)) :
    (elapsedOf calls).length = calls.length :=
  List.length_map calls _

theorem slowThenFast_elapsed :
    elapsedOf slowThenFast = 1002000000 :: List.replicate 1000 1000000 := by
  unfold elapsedOf slowThenFast
  rw [List.map_cons, List.map_replicate]

theorem slowThenFast_length : slowThenFast.length = 1001 := by
  unfold slowThenFast
  rw [List.length_cons, List.length_replicate]

theorem meanMs_replicate_thousand : meanMs (List.replicate 1000 1000000) = 1 := by
  unfold meanMs
  rw [List.sum_replicate, List.length_replicate]
  norm_num

theorem meanMs_slowThenFast :
    meanMs (1002000000 :: List.replicate 1000 1000000) = 2 := by
  unfold meanMs
  rw [List.sum_cons, List.sum_replicate, List.length_cons, List.length_replicate]
  norm_num

/-! ## Claims on the average -/

/-- C3, refuted as stated: after 1001 recordings from the zeroed state (one of
1002 ms, then a thousand of 1 ms) the window holds the thousand 1 ms samples,
whose mean is 1 ms, while `AvgResponseTime` is 2 ms: the evicted sample still
counts in the average. -/
theorem average_counts_evicted_sample :
    (recordAll slowThenFast Metrics.zero).RequestTimes = List.replicate 1000 1000000 ∧
    meanMs (recordAll slowThenFast Metrics.zero).RequestTimes = 1 ∧
    (recordAll slowThenFast Metrics.zero).AvgResponseTime = 2 ∧
    (recordAll slowThenFast Metrics.zero).AvgResponseTime ≠
      meanMs (recordAll slowThenFast Metrics.zero).RequestTimes := by
  have hw : (recordAll slowThenFast Metrics.zero).RequestTimes = List.replicate 1000 1000000 := by
    rw [recordAll_window slowThenFast Metrics.zero zero_window_length, slowThenFast_elapsed,
      show Metrics.zero.RequestTimes = [] from rfl, List.nil_append]
    unfold lastN
    rw [List.length_cons, List.length_replicate]
    rfl
  have ha : (recordAll slowThenFast Metrics.zero).AvgResponseTime = 2 := by
    rw [recordAll_average_of_ne_nil slowThenFast Metrics.zero zero_window_length
        (List.cons_ne_nil _ _),
      slowThenFast_elapsed, show Metrics.zero.RequestTimes = [] from rfl, List.nil_append,
      lastN_of_length_le 1001 _ (by rw [List.length_cons, List.length_replicate]),
      meanMs_slowThenFast]
  have hm : meanMs (recordAll slowThenFast Metrics.zero).RequestTimes = 1 := by
    rw [hw, meanMs_replicate_thousand]
  refine ⟨hw, hm, ha, ?_⟩
  rw [ha, hm]
  norm_num

/-- C3, amended: after every `recordMetrics` call, the `n`-th from the zeroed
state, `AvgResponseTime` is the arithmetic mean, in milliseconds, of the most
recent `min n 1001` recorded durations, the window as it stands after the new
sample is appended and before it is cut to 1000. For `n ≤ 1000` these are the
durations held in `RequestTimes` in the resulting state; for `n > 1000` they
are those thousand preceded by the one sample this call evicts. -/
theorem average_is_mean_before_truncation
    (calls : List (Duration × Bool)) (hne : calls ≠ []) :
    (recordAll calls Metrics.zero).AvgResponseTime =
      meanMs (lastN (min calls.length 1001) (elapsedOf calls)) ∧
    (calls.length ≤ 1000 →
      (recordAll calls Metrics.zero).AvgResponseTime =
        meanMs (recordAll calls Metrics.zero).RequestTimes) ∧
    (1000 < calls.length →
      ∃ evicted : Duration,
        lastN (min calls.length 1001) (elapsedOf calls) =
          evicted :: (recordAll calls Metrics.zero).RequestTimes) := by
  have ha := recordAll_average_of_ne_nil calls Metrics.zero zero_window_length hne
  have hw := recordAll_window calls Metrics.zero zero_window_length
  rw [show Metrics.zero.RequestTimes = [] from rfl, List.nil_append] at ha hw
  have hlen := elapsedOf_length calls
  have hmin : lastN (min calls.length 1001) (elapsedOf calls) = lastN 1001 (elapsedOf calls) := by
    unfold lastN
    have hk : (elapsedOf calls).length - min calls.length 1001 =
        (elapsedOf calls).length - 1001 := by omega
    rw [hk]
  rw [hmin]
  refine ⟨ha, ?_, ?_⟩
  · intro hle
    rw [ha, hw, lastN_of_length_le 1001 _ (by omega), lastN_of_length_le 1000 _ (by omega)]
  · intro hgt
    rw [hw, ← lastN_lastN_succ 1000 (elapsedOf calls)]
    have h1001 : (lastN 1001 (elapsedOf calls)).length = 1001 := by
      rw [lastN_length, hlen]
      omega
    generalize lastN 1001 (elapsedOf calls) = l at h1001
    match l, h1001 with
    | x :: xs, hx =>
      refine ⟨x, ?_⟩
      have hxs : xs.length = 1000 := by
        rw [List.length_cons] at hx
        omega
      unfold lastN
      rw [List.length_cons, hxs]
      rfl

/-- C3 amended, at concrete inputs: three recordings (the average is the mean
of the window) and the 1001 recordings of `slowThenFast` (the average is the
mean of the window preceded by the evicted sample). -/
theorem average_is_mean_before_truncation_witness :
    (recordAll threeCalls Metrics.zero).AvgResponseTime =
      meanMs (recordAll threeCalls Metrics.zero).RequestTimes ∧
    ∃ evicted : Duration,
      lastN (min slowThenFast.length 1001) (elapsedOf slowThenFast) =
        evicted :: (recordAll slowThenFast Metrics.zero).RequestTimes :=
  ⟨(average_is_mean_before_truncation threeCalls (List.cons_ne_nil _ _)).2.1 (by decide),
   (average_is_mean_before_truncation slowThenFast (List.cons_ne_nil _ _)).2.2
      (by rw [slowThenFast_length]; omega)⟩

/-- C4: every `recordMetrics` call sets `AvgResponseTime` to the sum of the
durations of the window right after the new sample is appended, divided by
their number, divided by one millisecond, in exact arithmetic, and that number
is not zero; hence from the zeroed state, after any non-empty sequence of at
most 1000 recordings, the average is the mean of all recorded elapsed times in
milliseconds. -/
theorem average_formula (m : Metrics) (elapsed : Duration) (success : Bool) :
    (recordMetrics elapsed success m).AvgResponseTime =
      ((m.RequestTimes ++ [elapsed]).sum : ℚ) / ((m.RequestTimes ++ [elapsed]).length : ℚ)
        / (Millisecond : ℚ) ∧
    ((m.RequestTimes ++ [elapsed]).length : ℚ) ≠ 0 ∧
    (Millisecond : ℚ) ≠ 0 ∧
    (∀ calls : List (Duration × Bool), calls ≠ [] → calls.length ≤ 1000 →
      (recordAll calls Metrics.zero).AvgResponseTime = meanMs (elapsedOf calls)) := by
  refine ⟨?_, ?_, by norm_num [Millisecond], ?_⟩
  · simp only [recordMetrics, average]
    rw [sumDurations_eq_sum]
  · have hpos : 0 < (m.RequestTimes ++ [elapsed]).length := by
      rw [List.length_append, List.length_singleton]
      omega
    exact_mod_cast hpos.ne'
  · intro calls hne hlen
    have ha := recordAll_average_of_ne_nil calls Metrics.zero zero_window_length hne
    rw [show Metrics.zero.RequestTimes = [] from rfl, List.nil_append] at ha
    rw [ha, lastN_of_length_le 1001 _ (by rw [elapsedOf_length]; omega)]

/-- C4, at a concrete input: recordings of 2 ms, 4 ms and 6 ms from the zeroed
state give an average of 4 ms. -/
theorem average_formula_witness :
    (recordAll threeCalls Metrics.zero).AvgResponseTime = meanMs (elapsedOf threeCalls) ∧
    meanMs (elapsedOf threeCalls) = 4 :=
  ⟨(average_formula Metrics.zero 0 true).2.2.2 threeCalls (by decide) (by decide),
   by norm_num [meanMs, elapsedOf, threeCalls]⟩

/-! ## Claims on the handlers -/

/-- C6: in every handler, if a `pool.Submit` call of the request returns an
error (either of the two calls for `/api/mixed`), the handler responds with
status 500 and nothing else, calls `recordMetrics(start, false)` exactly once,
never calls `wg.Wait()`, and writes no 200 response. -/
theorem submit_error_gives_500 {V : Type} (r : Route) (env : Env V) (w : World V) (e : String)
    (h : some e ∈ submitResults (serve r env w).trace) :
    statuses (serve r env w).trace = [StatusInternalServerError] ∧
    recordCalls (serve r env w).trace = [false] ∧
    waitCount (serve r env w).trace = 0 ∧
    StatusOK ∉ statuses (serve r env w).trace ∧
    (serve r env w).metrics = recordMetrics env.elapsed false w.metrics := by
  rcases env with ⟨se, se2, cpu, body, be, um, fe, tt, rs, el, un, pr, pf, pc⟩
  cases r with
  | apiHealth =>
    simp [serve, handleHealth, cJSON, Ctx.emit, Ctx.start, submitResults] at h
  | apiCpu =>
    cases se <;>
    simp_all [serve, handleCpu, poolSubmit, wgWait, cJSON, callRecordMetrics, Ctx.emit,
      Ctx.start, statuses, recordCalls, submitResults, waitCount, StatusOK,
      StatusInternalServerError]
  | apiIo =>
    cases se <;>
    simp_all [serve, handleIo, poolSubmit, wgWait, cJSON, callRecordMetrics, Ctx.emit,
      Ctx.start, statuses, recordCalls, submitResults, waitCount, StatusOK,
      StatusInternalServerError]
  | apiDbGet key =>
    cases se <;> cases tt <;> cases hdb : w.mockDB key <;>
    simp_all [serve, handleDbGet, dbReadOperation, errAtCheck, errAfterWait, resultOf, errorOf,
      poolSubmit, wgWait, cJSON, callRecordMetrics, Ctx.emit, Ctx.start, statuses, recordCalls,
      submitResults, waitCount, StatusOK, StatusInternalServerError]
  | apiDbPost key =>
    cases se <;> cases tt <;> cases be <;> cases hu : um body <;>
    simp_all [serve, handleDbPost, dbWriteOperation, errAtCheck, errAfterWait, poolSubmit,
      wgWait, cJSON, callRecordMetrics, Ctx.emit, Ctx.start, statuses, recordCalls,
      submitResults, waitCount, StatusOK, StatusInternalServerError]
  | apiFile =>
    cases se <;> cases tt <;> cases be <;> cases fe <;>
    simp_all [serve, handleFile, errAtCheck, errAfterWait, poolSubmit, wgWait, cJSON,
      callRecordMetrics, Ctx.emit, Ctx.start, statuses, recordCalls, submitResults, waitCount,
      StatusOK, StatusInternalServerError]
  | apiMixed =>
    cases se <;> cases se2 <;>
    simp_all [serve, handleMixed, poolSubmit, wgWait, cJSON, callRecordMetrics, Ctx.emit,
      Ctx.start, statuses, recordCalls, submitResults, waitCount, StatusOK,
      StatusInternalServerError]
  | apiMetrics =>
    simp [serve, handleMetrics, cJSON, Ctx.emit, Ctx.start, submitResults] at h
  | legacyHealth =>
    simp [serve, handleLegacyHealth, cRedirect, Ctx.emit, Ctx.start, submitResults] at h
  | legacyCpu =>
    simp [serve, handleLegacyCpu, cRedirect, Ctx.emit, Ctx.start, submitResults] at h
  | legacyIo =>
    simp [serve, handleLegacyIo, cRedirect, Ctx.emit, Ctx.start, submitResults] at h

/-- C6, at a concrete input: `GET /api/cpu` against a saturated pool. -/
theorem submit_error_gives_500_witness :
    some "too many goroutines blocked on submit or Nonblocking is set" ∈
      submitResults (serve Route.apiCpu saturatedEnv sampleWorld).trace ∧
    statuses (serve Route.apiCpu saturatedEnv sampleWorld).trace = [500] ∧
    recordCalls (serve Route.apiCpu saturatedEnv sampleWorld).trace = [false] ∧
    waitCount (serve Route.apiCpu saturatedEnv sampleWorld).trace = 0 :=
  ⟨List.mem_cons_self _ _,
   (submit_error_gives_500 Route.apiCpu saturatedEnv sampleWorld _ (List.mem_cons_self _ _)).1,
   (submit_error_gives_500 Route.apiCpu saturatedEnv sampleWorld _ (List.mem_cons_self _ _)).2.1,
   (submit_error_gives_500 Route.apiCpu saturatedEnv sampleWorld _
      (List.mem_cons_self _ _)).2.2.1⟩

/-- C7: for every key and every request body on which `json.Unmarshal` fails
(as it does on every body that is not well-formed JSON), `POST /api/db/:key`
responds with status 400 and nothing else, calls `pool.Submit` not once, does
not wait, and leaves the store as it was. -/
theorem malformed_json_rejected {V : Type} (key : String) (env : Env V) (w : World V)
    (e : String) (h : env.unmarshal env.body = Except.error e) :
    statuses (serve (Route.apiDbPost key) env w).trace = [StatusBadRequest] ∧
    submitResults (serve (Route.apiDbPost key) env w).trace = [] ∧
    waitCount (serve (Route.apiDbPost key) env w).trace = 0 ∧
    (serve (Route.apiDbPost key) env w).mockDB = w.mockDB ∧
    recordCalls (serve (Route.apiDbPost key) env w).trace = [false] := by
  rcases env with ⟨se, se2, cpu, body, be, um, fe, tt, rs, el, un, pr, pf, pc⟩
  cases be <;>
  simp_all [serve, handleDbPost, cJSON, callRecordMetrics, Ctx.emit, Ctx.start, statuses,
    recordCalls, submitResults, waitCount, StatusBadRequest]

/-- C7, at a concrete input: the body `not-json` posted to the key `users`. -/
theorem malformed_json_rejected_witness :
    sampleEnv.unmarshal sampleEnv.body = Except.error "invalid character" ∧
    statuses (serve (Route.apiDbPost "users") sampleEnv sampleWorld).trace = [400] ∧
    submitResults (serve (Route.apiDbPost "users") sampleEnv sampleWorld).trace = [] ∧
    (serve (Route.apiDbPost "users") sampleEnv sampleWorld).mockDB = sampleWorld.mockDB :=
  ⟨rfl,
   (malformed_json_rejected "users" sampleEnv sampleWorld "invalid character" rfl).1,
   (malformed_json_rejected "users" sampleEnv sampleWorld "invalid character" rfl).2.1,
   (malformed_json_rejected "users" sampleEnv sampleWorld "invalid character" rfl).2.2.2.1⟩

/-! ## The read handler and its shared `err` -/

theorem dbReadOperation_error_iff_absent {V : Type} (key : String) (db : Store V) :
    ((∃ e : String, (dbReadOperation key db).1 = Except.error e) ↔ db key = none) ∧
    (∀ v : V, db key = some v → (dbReadOperation key db).1 = Except.ok v) ∧
    (dbReadOperation key db).2 = db := by
  cases hdb : db key <;> simp [dbReadOperation, hdb]

theorem dbGet_present_key {V : Type} (key : String) (env : Env V) (w : World V) (v : V)
    (haccept : env.submitErr = none) (hkey : w.mockDB key = some v) :
    statuses (serve (Route.apiDbGet key) env w).trace = [StatusOK] ∧
    bodies (serve (Route.apiDbGet key) env w).trace =
      [[("data", Field.value v),
        ("execution_time_ms", Field.int (milliseconds env.replySince))]] := by
  rcases env with ⟨se, se2, cpu, body, be, um, fe, tt, rs, el, un, pr, pf, pc⟩
  simp only at haccept
  subst haccept
  cases tt <;>
  simp [hkey, serve, handleDbGet, dbReadOperation, errAtCheck, errAfterWait, resultOf, errorOf,
    Field.ofResult, poolSubmit, wgWait, cJSON, callRecordMetrics, Ctx.emit, Ctx.start,
    statuses, bodies, StatusOK]

theorem dbGet_absent_key {V : Type} (key : String) (env : Env V) (w : World V)
    (haccept : env.submitErr = none) (hkey : w.mockDB key = none) :
    (env.taskTiming = TaskTiming.duringWait →
      statuses (serve (Route.apiDbGet key) env w).trace = [StatusNotFound]) ∧
    (env.taskTiming = TaskTiming.beforeCheck →
      statuses (serve (Route.apiDbGet key) env w).trace = [StatusInternalServerError] ∧
      waitCount (serve (Route.apiDbGet key) env w).trace = 0) ∧
    (env.taskTiming = TaskTiming.beforeStore →
      statuses (serve (Route.apiDbGet key) env w).trace = [StatusOK] ∧
      bodies (serve (Route.apiDbGet key) env w).trace =
        [[("data", Field.null),
          ("execution_time_ms", Field.int (milliseconds env.replySince))]]) := by
  rcases env with ⟨se, se2, cpu, body, be, um, fe, tt, rs, el, un, pr, pf, pc⟩
  simp only at haccept
  subst haccept
  cases tt <;>
  simp [hkey, serve, handleDbGet, dbReadOperation, errAtCheck, errAfterWait, resultOf, errorOf,
    Field.ofResult, poolSubmit, wgWait, cJSON, callRecordMetrics, Ctx.emit, Ctx.start,
    statuses, bodies, waitCount, StatusOK, StatusNotFound, StatusInternalServerError]

/-- C8, the code at the failing input: the store has no key `orders` and the
pool accepts the read task. When the closure writes `err` while the handler
waits, `GET /api/db/orders` answers 404. When the closure writes `err` before
the handler tests it, the handler takes the error of the task for an error of
`Submit`: it answers 500 and does not wait. When the closure writes `err`
before the handler stores the nil of `Submit` over it, the error is lost: the
handler answers 200 with `data` null. -/
theorem db_get_absent_key_races :
    sampleWorld.mockDB "orders" = none ∧
    sampleEnv.submitErr = none ∧ earlyTaskEnv.submitErr = none ∧
    overwrittenEnv.submitErr = none ∧
    statuses (serve (Route.apiDbGet "orders") sampleEnv sampleWorld).trace = [404] ∧
    statuses (serve (Route.apiDbGet "orders") earlyTaskEnv sampleWorld).trace = [500] ∧
    bodies (serve (Route.apiDbGet "orders") earlyTaskEnv sampleWorld).trace =
      [[("error", Field.text "key 'orders' not found")]] ∧
    waitCount (serve (Route.apiDbGet "orders") earlyTaskEnv sampleWorld).trace = 0 ∧
    statuses (serve (Route.apiDbGet "orders") overwrittenEnv sampleWorld).trace = [200] ∧
    bodies (serve (Route.apiDbGet "orders") overwrittenEnv sampleWorld).trace =
      [[("data", Field.null), ("execution_time_ms", Field.int 3)]] := by
  have habsent : sampleWorld.mockDB "orders" = none := by decide
  refine ⟨habsent, rfl, rfl, rfl, ?_, ?_, ?_, ?_, ?_, ?_⟩
  · exact (dbGet_absent_key "orders" sampleEnv sampleWorld rfl habsent).1 rfl
  · exact ((dbGet_absent_key "orders" earlyTaskEnv sampleWorld rfl habsent).2.1 rfl).1
  · simp [habsent, earlyTaskEnv, sampleEnv, serve, handleDbGet, dbReadOperation, errAtCheck,
      errAfterWait, resultOf, errorOf, poolSubmit, cJSON, callRecordMetrics, Ctx.emit,
      Ctx.start, bodies, StatusInternalServerError]
  · exact ((dbGet_absent_key "orders" earlyTaskEnv sampleWorld rfl habsent).2.1 rfl).2
  · exact ((dbGet_absent_key "orders" overwrittenEnv sampleWorld rfl habsent).2.2 rfl).1
  · have hms : milliseconds overwrittenEnv.replySince = 3 := by decide
    rw [← hms]
    exact ((dbGet_absent_key "orders" overwrittenEnv sampleWorld rfl habsent).2.2 rfl).2

/-! ## Claims on the redirects and on the metrics calls of the handlers -/

/-- C9, refuted as stated: the legacy routes `GET /health`, `GET /cpu` and
`GET /io` each answer with status 307, `http.StatusTemporaryRedirect`, which
is not a permanent-redirect status. -/
theorem legacy_redirect_is_temporary :
    statuses (serve Route.legacyHealth sampleEnv sampleWorld).trace = [307] ∧
    statuses (serve Route.legacyCpu sampleEnv sampleWorld).trace = [307] ∧
    statuses (serve Route.legacyIo sampleEnv sampleWorld).trace = [307] ∧
    ¬ isPermanentRedirect 307 := by
  refine ⟨rfl, rfl, rfl, ?_⟩
  decide

/-- C9, amended: each legacy route `GET /health`, `GET /cpu` and `GET /io` does
one thing only, a redirect with the temporary-redirect status 307 to the
corresponding `/api/health`, `/api/cpu` or `/api/io` path; it submits no work,
records no metrics and leaves the metrics and the store as they were. -/
theorem legacy_routes_redirect {V : Type} (r : Route) (target : String) (env : Env V)
    (w : World V) (hlegacy : r.legacyTarget = some target) :
    (serve r env w).trace = [Effect.redirect StatusTemporaryRedirect target] ∧
    statuses (serve r env w).trace = [StatusTemporaryRedirect] ∧
    redirectTargets (serve r env w).trace = [target] ∧
    submitResults (serve r env w).trace = [] ∧
    recordCalls (serve r env w).trace = [] ∧
    (serve r env w).metrics = w.metrics ∧
    (serve r env w).mockDB = w.mockDB := by
  cases r <;> simp [Route.legacyTarget] at hlegacy <;> subst hlegacy <;>
    simp [serve, handleLegacyHealth, handleLegacyCpu, handleLegacyIo, cRedirect, Ctx.emit,
      Ctx.start, statuses, redirectTargets, submitResults, recordCalls]

/-- C9 amended, at a concrete input: `GET /cpu` redirects to `/api/cpu` with
status 307. -/
theorem legacy_routes_redirect_witness :
    Route.legacyCpu.legacyTarget = some "/api/cpu" ∧
    (serve Route.legacyCpu sampleEnv sampleWorld).trace = [Effect.redirect 307 "/api/cpu"] :=
  ⟨rfl, (legacy_routes_redirect Route.legacyCpu "/api/cpu" sampleEnv sampleWorld rfl).1⟩

/-- C10: on every path of each of the six workload handlers `recordMetrics` is
called exactly once and one response is written, with `success = true` if and
only if the status is 200, so the request raises `TotalRequests` by exactly 1;
`GET /api/health` and `GET /api/metrics` call `recordMetrics` not once and
leave every metrics field unchanged. -/
theorem one_record_per_workload_request {V : Type} (r : Route) (env : Env V) (w : World V) :
    (r.isWorkload = true →
      ∃ (status : Nat) (success : Bool),
        statuses (serve r env w).trace = [status] ∧
        recordCalls (serve r env w).trace = [success] ∧
        (success = true ↔ status = StatusOK) ∧
        (serve r env w).metrics = recordMetrics env.elapsed success w.metrics ∧
        (serve r env w).metrics.TotalRequests = w.metrics.TotalRequests + 1) ∧
    (r = Route.apiHealth ∨ r = Route.apiMetrics →
      recordCalls (serve r env w).trace = [] ∧
      statuses (serve r env w).trace = [StatusOK] ∧
      (serve r env w).metrics = w.metrics) := by
  rcases env with ⟨se, se2, cpu, body, be, um, fe, tt, rs, el, un, pr, pf, pc⟩
  cases r with
  | apiHealth =>
    simp [Route.isWorkload, serve, handleHealth, cJSON, Ctx.emit, Ctx.start, statuses,
      recordCalls]
  | apiCpu =>
    cases se <;>
    simp [Route.isWorkload, serve, handleCpu, poolSubmit, wgWait, cJSON, callRecordMetrics,
      Ctx.emit, Ctx.start, statuses, recordCalls, recordMetrics, StatusOK,
      StatusInternalServerError]
  | apiIo =>
    cases se <;>
    simp [Route.isWorkload, serve, handleIo, poolSubmit, wgWait, cJSON, callRecordMetrics,
      Ctx.emit, Ctx.start, statuses, recordCalls, recordMetrics, StatusOK,
      StatusInternalServerError]
  | apiDbGet key =>
    cases se <;> cases tt <;> cases hdb : w.mockDB key <;>
    simp [hdb, Route.isWorkload, serve, handleDbGet, dbReadOperation, errAtCheck, errAfterWait,
      resultOf, errorOf, poolSubmit, wgWait, cJSON, callRecordMetrics, Ctx.emit, Ctx.start,
      statuses, recordCalls, recordMetrics, StatusOK, StatusNotFound,
      StatusInternalServerError]
  | apiDbPost key =>
    cases se <;> cases tt <;> cases be <;> cases hu : um body <;>
    simp [hu, Route.isWorkload, serve, handleDbPost, dbWriteOperation, errAtCheck, errAfterWait,
      poolSubmit, wgWait, cJSON, callRecordMetrics, Ctx.emit, Ctx.start, statuses,
      recordCalls, recordMetrics, StatusOK, StatusBadRequest, StatusInternalServerError]
  | apiFile =>
    cases se <;> cases tt <;> cases be <;> cases fe <;>
    simp [Route.isWorkload, serve, handleFile, errAtCheck, errAfterWait, poolSubmit, wgWait,
      cJSON, callRecordMetrics, Ctx.emit, Ctx.start, statuses, recordCalls, recordMetrics,
      StatusOK, StatusBadRequest, StatusInternalServerError]
  | apiMixed =>
    cases se <;> cases se2 <;>
    simp [Route.isWorkload, serve, handleMixed, poolSubmit, wgWait, cJSON, callRecordMetrics,
      Ctx.emit, Ctx.start, statuses, recordCalls, recordMetrics, StatusOK,
      StatusInternalServerError]
  | apiMetrics =>
    simp [Route.isWorkload, serve, handleMetrics, cJSON, Ctx.emit, Ctx.start, statuses,
      recordCalls]
  | legacyHealth => simp [Route.isWorkload]
  | legacyCpu => simp [Route.isWorkload]
  | legacyIo => simp [Route.isWorkload]

/-- C10, at concrete inputs: a read of the key `users` records once and adds 1
to `TotalRequests`; `GET /api/metrics` leaves the metrics unchanged. -/
theorem one_record_per_workload_request_witness :
    (Route.apiDbGet "users").isWorkload = true ∧
    (serve (Route.apiDbGet "users") sampleEnv sampleWorld).metrics.TotalRequests =
      sampleWorld.metrics.TotalRequests + 1 ∧
    (serve Route.apiMetrics sampleEnv sampleWorld).metrics = sampleWorld.metrics :=
  ⟨rfl,
   match (one_record_per_workload_request (Route.apiDbGet "users") sampleEnv sampleWorld).1 rfl
   with
   | ⟨_, _, _, _, _, _, htotal⟩ => htotal,
   ((one_record_per_workload_request Route.apiMetrics sampleEnv sampleWorld).2
      (Or.inr rfl)).2.2⟩

/-! ## The worker pool -/

end JmeterStu
